import Mathlib

/-!
Verification of the wizard engine (`WizardBase.run`) and the remote-SSH
session manager (`remoteSsh`) of the vscode-azureappservice extension,
as a shallow embedding in Lean.

The wizard drives two phases over a declared list of steps: first every
step's `prompt()` in order, then every step's `execute()` in order.  Each
call either returns normally, throws `UserCancelledError`, or throws a
generic error; we model a step by the outcome of each of its two methods
and record the calls the engine makes in a trace.
-/

namespace Wizard

/-- Outcome of one call to a step's `prompt()` or `execute()` method:
normal return, a thrown `UserCancelledError`, or a thrown generic error. -/
inductive Outcome where
  | success
  | userCancelled
  | failure
deriving DecidableEq, Repr

/-- A wizard step, modelled by the behaviour of its two methods during
the single run.  `id` distinguishes steps. -/
structure WizardStep where
  id : Nat
  promptOutcome : Outcome
  executeOutcome : Outcome
deriving DecidableEq, Repr

inductive WizardStatus where
  | Completed
  | Faulted
  | Cancelled
deriving DecidableEq, Repr

/-- The result object `run()` returns.  `step` is `none` when the code
reads `steps[steps.length - 1]` of an empty list (undefined); `error`
is `none` for the `null` error of a completed run. -/
structure WizardResult where
  status : WizardStatus
  step : Option WizardStep
  error : Option Outcome
deriving DecidableEq, Repr

/-- The mutable state of a `WizardBase` object: its step list and the
`_result` field (uninitialised = `none`). -/
structure WizardBase where
  steps : List WizardStep
  result : Option WizardResult
deriving DecidableEq, Repr

/-- An observable call the engine makes on a step. -/
inductive WizardEvent where
  | promptCall (s : WizardStep)
  | executeCall (s : WizardStep)
deriving DecidableEq, Repr

/-- Status for a thrown error: `err instanceof UserCancelledError ? Cancelled : Faulted`. -/
def statusOf : Outcome → WizardStatus
  | .userCancelled => .Cancelled
  | _ => .Faulted

/-- The prompt loop of `run()`: call `prompt()` on each step in order,
stopping at the first call that throws.  Returns the trace of calls made
and the failing step together with what it threw, if any. -/
def runPrompts : List WizardStep → List WizardEvent × Option (WizardStep × Outcome)
  | [] => ([], none)
  | s :: rest =>
    match s.promptOutcome with
    | .success =>
      let r := runPrompts rest
      (.promptCall s :: r.1, r.2)
    | o => ([.promptCall s], some (s, o))

/-- The execute loop of `run()`: call `execute()` on each step in order,
stopping at the first call that throws. -/
def runExecutes : List WizardStep → List WizardEvent × Option (WizardStep × Outcome)
  | [] => ([], none)
  | s :: rest =>
    match s.executeOutcome with
    | .success =>
      let r := runExecutes rest
      (.executeCall s :: r.1, r.2)
    | o => ([.executeCall s], some (s, o))

/-- The method `WizardBase.run()`: prompt phase, then execute phase.  A prompt-phase
throw returns a result without touching `_result`; an execute-phase throw
and a completed run store the returned result in `_result`.  Returns the
result, the wizard object afterwards, and the trace of step calls. -/
def run (w : WizardBase) : WizardResult × WizardBase × List WizardEvent :=
  match runPrompts w.steps with
  | (ptr, some (s, o)) =>
    ({ status := statusOf o, step := some s, error := some o }, w, ptr)
  | (ptr, none) =>
    match runExecutes w.steps with
    | (etr, some (s, o)) =>
      let r : WizardResult := { status := statusOf o, step := some s, error := some o }
      (r, { w with result := some r }, ptr ++ etr)
    | (etr, none) =>
      let r : WizardResult :=
        { status := .Completed, step := w.steps.getLast?, error := none }
      (r, { w with result := some r }, ptr ++ etr)

/-- The (unique) error raised during a run of `w`, if any: the first
prompt-phase throw, or — when every prompt succeeded — the first
execute-phase throw. -/
def raised (w : WizardBase) : Option (WizardStep × Outcome) :=
  match (runPrompts w.steps).2 with
  | some f => some f
  | none => (runExecutes w.steps).2

/-- Steps whose `prompt()` was called, in call order. -/
def promptedSteps (tr : List WizardEvent) : List WizardStep :=
  tr.filterMap fun e => match e with | .promptCall s => some s | _ => none

/-- Steps whose `execute()` was called, in call order. -/
def executedSteps (tr : List WizardEvent) : List WizardStep :=
  tr.filterMap fun e => match e with | .executeCall s => some s | _ => none

/-- A step whose `prompt()` raises `UserCancelledError`. -/
def stepCancel : WizardStep := ⟨0, .userCancelled, .success⟩

/-- A step whose two methods both return normally. -/
def stepOk : WizardStep := ⟨0, .success, .success⟩

/-- A step whose `execute()` raises a generic error. -/
def stepExecFail : WizardStep := ⟨1, .success, .failure⟩

/-- A trailing step whose two methods both return normally. -/
def stepTail : WizardStep := ⟨2, .success, .success⟩

/-- A one-step wizard whose prompt cancels. -/
def wizardCancel : WizardBase := { steps := [stepCancel], result := none }

/-- A one-step wizard that completes. -/
def wizardOne : WizardBase := { steps := [stepOk], result := none }

/-- A three-step wizard whose second step fails during execute. -/
def wizardThree : WizardBase :=
  { steps := [stepOk, stepExecFail, stepTail], result := none }

/-- A one-step wizard whose execute raises a generic error. -/
def wizardExecFail : WizardBase :=
  { steps := [⟨0, .success, .failure⟩], result := none }

end Wizard

/-!
The remote-SSH session manager (`remoteSsh` in the source).  Its registry
`activeSshSessions` is a JS `Map` in which only booleans are ever stored:
`get` yields `undefined` (`none`) for a never-set key, and the duplicate
check and the running check test only the truthiness of the stored value.
Worlds carry the registry, the target site's `remoteDebuggingEnabled`
configuration value, and the `vscode.window.terminals` list; operations
return the trace of observable actions, the world afterwards, and the
error thrown, if any.
-/

namespace Ssh

/-- A VS Code terminal: creation id (standing for `processId`), display
name, and whether it has been disposed. -/
structure Terminal where
  id : Nat
  name : String
  disposed : Bool
deriving DecidableEq, Repr

/-- JS `Map.prototype.get`: `none` for a key that was never set. -/
def mapGet : List (String × Bool) → String → Option Bool
  | [], _ => none
  | (k2, v) :: rest, k => if k2 = k then some v else mapGet rest k

/-- JS `Map.prototype.set`: replace the entry in place, or append. -/
def mapSet : List (String × Bool) → String → Bool → List (String × Bool)
  | [], k, v => [(k, v)]
  | (k2, v2) :: rest, k, v =>
    if k2 = k then (k, v) :: rest else (k2, v2) :: mapSet rest k v

/-- JS `Map.prototype.delete`; used only to compare a key whose entry is
`false` with a key that never had an entry. -/
def mapErase : List (String × Bool) → String → List (String × Bool)
  | [], _ => []
  | (k2, v2) :: rest, k =>
    if k2 = k then mapErase rest k else (k2, v2) :: mapErase rest k

/-- Truthiness of `activeSshSessions.get(k)`: only a stored `true` is
truthy; `undefined` and a stored `false` are falsy. -/
def truthy (m : List (String × Bool)) (k : String) : Bool :=
  (mapGet m k).getD false

/-- The world the manager acts on: the session registry, the target
site's `remoteDebuggingEnabled` configuration value, and the terminals of
`vscode.window`. -/
structure World where
  activeSshSessions : List (String × Bool)
  remoteDebuggingEnabled : Bool
  terminals : List Terminal
  nextTermId : Nat
deriving DecidableEq, Repr

/-- Behaviour of the external collaborators during one `startSession`
call: whether the site is Linux, whether `tunnelProxy.startProxy()`
succeeds, and the free local port `portfinder` reserves. -/
structure Env where
  isLinux : Bool
  startProxyOk : Bool
  freePort : Nat
deriving DecidableEq, Repr

/-- The errors the manager can throw. -/
inductive SshError where
  | alreadyStarted (k : String)
  | notLinux
  | proxyFailed
  | notRunning (k : String)
  | terminalNotFound (name : String)
  | tunnelDisposeFailed
deriving DecidableEq, Repr

/-- One observable action of the manager. -/
inductive SshEvent where
  | regWrite (k : String) (v : Bool)
  | getSiteConfig
  | getFreePort
  | checkLinux
  | setRemoteDebug (b : Bool)
  | getPublishCredential
  | startProxy
  | createTerminal (name : String)
  | sendText (cmd : String)
  | delay (ms : Nat)
  | showTerminal
  | registerCloseHandler
  | lookupTerminals
  | disposeTerminal (id : Nat)
  | disposeTunnel
deriving DecidableEq, Repr

/-- Result of one manager operation: trace of actions, world afterwards,
and the thrown error, if any. -/
structure SshOutcome where
  trace : List SshEvent
  world : World
  err : Option SshError
deriving DecidableEq, Repr

/-- The session's well-known terminal name. -/
def sshTerminalName (k : String) : String := k ++ " - Remote SSH"

/-- The connect command sent to the terminal, referencing the reserved
local port. -/
def sshCommand (port : Nat) : String :=
  "ssh -c aes256-cbc -o StrictHostKeyChecking=no -o \"UserKnownHostsFile /dev/null\" -o \"LogLevel ERROR\" root@127.0.0.1 -p " ++ toString port

/-- The method `connectToTunnelProxy`: create the bound terminal, send the connect
command, wait the fixed 3000 ms settle delay, send the login credential,
show the terminal, and register the terminal-closure handler. -/
def connectToTunnelProxy (k : String) (port : Nat) (w : World) : SshOutcome :=
  let nm := sshTerminalName k
  let term : Terminal := { id := w.nextTermId, name := nm, disposed := false }
  { trace := [.createTerminal nm, .sendText (sshCommand port), .delay 3000,
      .sendText "Docker!", .showTerminal, .registerCloseHandler],
    world := { w with
      terminals := w.terminals ++ [term],
      nextTermId := w.nextTermId + 1 },
    err := none }

/-- The method `startRemoteSshInternal`: read the site configuration (snapshotting
`remoteDebuggingEnabled`), reserve a free local port, then — inside the
progress notification — check the site is Linux, disable remote
debugging, fetch publish credentials, start the tunnel proxy, and connect
to it. -/
def startRemoteSshInternal (k : String) (env : Env) (w : World) : SshOutcome :=
  if ¬ env.isLinux then
    { trace := [.getSiteConfig, .getFreePort, .checkLinux], world := w,
      err := some .notLinux }
  else
    let w1 := { w with remoteDebuggingEnabled := false }
    if ¬ env.startProxyOk then
      { trace := [.getSiteConfig, .getFreePort, .checkLinux,
          .setRemoteDebug false, .getPublishCredential, .startProxy],
        world := w1, err := some .proxyFailed }
    else
      let c := connectToTunnelProxy k env.freePort w1
      { trace := [.getSiteConfig, .getFreePort, .checkLinux,
          .setRemoteDebug false, .getPublishCredential, .startProxy]
          ++ c.trace,
        world := c.world, err := c.err }

/-- The method `startRemoteSsh(k)`: throw "already started" when the registry entry
for `k` is truthy; otherwise set the entry to `true` and run the internal
bring-up, setting the entry to `false` and rethrowing when it fails. -/
def startRemoteSsh (k : String) (env : Env) (w : World) : SshOutcome :=
  if truthy w.activeSshSessions k then
    { trace := [], world := w, err := some (.alreadyStarted k) }
  else
    let w1 := { w with activeSshSessions := mapSet w.activeSshSessions k true }
    let r := startRemoteSshInternal k env w1
    match r.err with
    | some e =>
      { trace := .regWrite k true :: r.trace ++ [.regWrite k false],
        world := { r.world with
          activeSshSessions := mapSet r.world.activeSshSessions k false },
        err := some e }
    | none => { trace := .regWrite k true :: r.trace, world := r.world,
                err := none }

/-- First terminal of `vscode.window.terminals` with the given name. -/
def findTerminal : List Terminal → String → Option Terminal
  | [], _ => none
  | t :: rest, nm => if t.name = nm then some t else findTerminal rest nm

/-- Dispose the first terminal with the given name. -/
def disposeFirst : List Terminal → String → List Terminal
  | [], _ => []
  | t :: rest, nm =>
    if t.name = nm then { t with disposed := true } :: rest
    else t :: disposeFirst rest nm

/-- The method `stopRemoteSsh(k)`: throw "not running" when the registry entry for
`k` is falsy, without touching the terminals; otherwise dispose the first
terminal named after the session, or throw "could not be found" when no
terminal carries that name, leaving the registry as it is. -/
def stopRemoteSsh (k : String) (w : World) : SshOutcome :=
  if ¬ truthy w.activeSshSessions k then
    { trace := [], world := w, err := some (.notRunning k) }
  else
    let nm := sshTerminalName k
    match findTerminal w.terminals nm with
    | some t =>
      { trace := [.lookupTerminals, .disposeTerminal t.id],
        world := { w with terminals := disposeFirst w.terminals nm },
        err := none }
    | none =>
      { trace := [.lookupTerminals], world := w,
        err := some (.terminalNotFound nm) }

/-- The closure captured when the terminal-closure handler is registered:
the target key, the snapshotted remote-debug setting, and the bound
terminal's id. -/
structure SessionCtx where
  k : String
  oldSetting : Bool
  termId : Nat
deriving DecidableEq, Repr

/-- The `onDidCloseTerminal` handler: when the closed terminal is the
bound one, dispose the tunnel, set the registry entry for `k` to `false`,
and restore the remote-debug setting — in that order, with no error
isolation, so a throw from `tunnelProxy.dispose()` (modelled by
`disposeOk = false`) aborts the remaining statements. -/
def onTerminalClosed (ctx : SessionCtx) (closedId : Nat) (disposeOk : Bool)
    (w : World) : SshOutcome :=
  if closedId = ctx.termId then
    if disposeOk then
      { trace := [.disposeTunnel, .regWrite ctx.k false,
          .setRemoteDebug ctx.oldSetting],
        world := { w with
          activeSshSessions := mapSet w.activeSshSessions ctx.k false,
          remoteDebuggingEnabled := ctx.oldSetting },
        err := none }
    else
      { trace := [.disposeTunnel], world := w,
        err := some .tunnelDisposeFailed }
  else
    { trace := [], world := w, err := none }

/-- The bring-up order the specification lists for `startSession`, as a
predicate on a trace: the platform check first, then the configuration
snapshot, then the port reservation, then the rest. -/
def specBringUpOrder (tr : List SshEvent) : Prop :=
  tr.indexOf .checkLinux < tr.indexOf .getSiteConfig ∧
  tr.indexOf .getSiteConfig < tr.indexOf .getFreePort ∧
  tr.indexOf .getFreePort < tr.indexOf (.setRemoteDebug false) ∧
  tr.indexOf (.setRemoteDebug false) < tr.indexOf .getPublishCredential ∧
  tr.indexOf .getPublishCredential < tr.indexOf .startProxy

instance (tr : List SshEvent) : Decidable (specBringUpOrder tr) := by
  unfold specBringUpOrder
  exact inferInstance

/-- A world with one active session for key "app1": registry entry
`true`, remote debugging currently off, the bound terminal open. -/
def sampleWorld : World :=
  { activeSshSessions := [("app1", true)],
    remoteDebuggingEnabled := false,
    terminals := [{ id := 0, name := sshTerminalName "app1",
                    disposed := false }],
    nextTermId := 1 }

/-- An empty world: no sessions, remote debugging on, no terminals. -/
def emptyWorld : World :=
  { activeSshSessions := [], remoteDebuggingEnabled := true,
    terminals := [], nextTermId := 0 }

/-- A Linux target whose bring-up succeeds, on local port 5000. -/
def goodEnv : Env := { isLinux := true, startProxyOk := true,
                       freePort := 5000 }

/-- A non-Linux target. -/
def windowsEnv : Env := { isLinux := false, startProxyOk := true,
                          freePort := 5000 }

/-- The world with the registry entry for `k` removed outright, as if no
session had ever existed for `k`. -/
def eraseSession (w : World) (k : String) : World :=
  { w with activeSshSessions := mapErase w.activeSshSessions k }

/-- A world whose registry holds the entry "app1" mapped to `false`, as
teardown and failed starts leave it. -/
def staleWorld : World :=
  { activeSshSessions := [("app1", false)], remoteDebuggingEnabled := true,
    terminals := [], nextTermId := 0 }

/-- A world whose registry reports "app1" active while no terminal with
the session's name exists (registry/UI drift). -/
def driftWorld : World :=
  { activeSshSessions := [("app1", true)], remoteDebuggingEnabled := false,
    terminals := [], nextTermId := 0 }

/-- The closure context of `sampleWorld`'s session: key "app1", snapshot
`true`, bound terminal id 0. -/
def sampleCtx : SessionCtx := { k := "app1", oldSetting := true,
                                termId := 0 }

end Ssh

namespace Wizard

theorem runPrompts_fail_mem {l : List WizardStep} {s : WizardStep} {o : Outcome}
    (h : (runPrompts l).2 = some (s, o)) :
    s ∈ l ∧ s.promptOutcome = o ∧ o ≠ .success := by
  induction l with
  | nil => simp [runPrompts] at h
  | cons a rest ih =>
    rcases ho : a.promptOutcome with _ | _ | _ <;> simp [runPrompts, ho] at h
    · rcases ih h with ⟨h1, h2, h3⟩
      exact ⟨List.mem_cons_of_mem _ h1, h2, h3⟩
    · rcases h with ⟨h1, h2⟩
      exact ⟨by simp [h1], by rw [← h1, ho]; exact h2, by rw [← h2]; simp⟩
    · rcases h with ⟨h1, h2⟩
      exact ⟨by simp [h1], by rw [← h1, ho]; exact h2, by rw [← h2]; simp⟩

theorem runPrompts_none {l : List WizardStep}
    (h : (runPrompts l).2 = none) :
    ∀ s ∈ l, s.promptOutcome = .success := by
  induction l with
  | nil => simp
  | cons a rest ih =>
    rcases ho : a.promptOutcome with _ | _ | _ <;> simp [runPrompts, ho] at h
    intro s hs
    rcases List.mem_cons.mp hs with h1 | h1
    · rw [h1, ho]
    · exact ih h s h1

theorem runExecutes_fail_mem {l : List WizardStep} {s : WizardStep} {o : Outcome}
    (h : (runExecutes l).2 = some (s, o)) :
    s ∈ l ∧ s.executeOutcome = o ∧ o ≠ .success := by
  induction l with
  | nil => simp [runExecutes] at h
  | cons a rest ih =>
    rcases ho : a.executeOutcome with _ | _ | _ <;> simp [runExecutes, ho] at h
    · rcases ih h with ⟨h1, h2, h3⟩
      exact ⟨List.mem_cons_of_mem _ h1, h2, h3⟩
    · rcases h with ⟨h1, h2⟩
      exact ⟨by simp [h1], by rw [← h1, ho]; exact h2, by rw [← h2]; simp⟩
    · rcases h with ⟨h1, h2⟩
      exact ⟨by simp [h1], by rw [← h1, ho]; exact h2, by rw [← h2]; simp⟩

theorem runPrompts_trace (l : List WizardStep) :
    ∃ m, (runPrompts l).1 = (l.take m).map WizardEvent.promptCall := by
  induction l with
  | nil => exact ⟨0, rfl⟩
  | cons a rest ih =>
    rcases ho : a.promptOutcome with _ | _ | _
    · rcases ih with ⟨m, hm⟩
      exact ⟨m + 1, by simp [runPrompts, ho, hm]⟩
    · exact ⟨1, by simp [runPrompts, ho]⟩
    · exact ⟨1, by simp [runPrompts, ho]⟩

theorem runExecutes_trace (l : List WizardStep) :
    ∃ m, (runExecutes l).1 = (l.take m).map WizardEvent.executeCall := by
  induction l with
  | nil => exact ⟨0, rfl⟩
  | cons a rest ih =>
    rcases ho : a.executeOutcome with _ | _ | _
    · rcases ih with ⟨m, hm⟩
      exact ⟨m + 1, by simp [runExecutes, ho, hm]⟩
    · exact ⟨1, by simp [runExecutes, ho]⟩
    · exact ⟨1, by simp [runExecutes, ho]⟩

theorem runPrompts_all_success {l : List WizardStep}
    (h : ∀ s ∈ l, s.promptOutcome = .success) :
    runPrompts l = (l.map WizardEvent.promptCall, none) := by
  induction l with
  | nil => rfl
  | cons a rest ih =>
    have ha : a.promptOutcome = .success := h a (by simp)
    have := ih fun s hs => h s (List.mem_cons_of_mem _ hs)
    simp [runPrompts, ha, this]

theorem runExecutes_split {pre post : List WizardStep} {si : WizardStep} {o : Outcome}
    (hpre : ∀ s ∈ pre, s.executeOutcome = .success)
    (hsi : si.executeOutcome = o) (ho : o ≠ .success) :
    runExecutes (pre ++ si :: post) =
      ((pre ++ [si]).map WizardEvent.executeCall, some (si, o)) := by
  induction pre with
  | nil =>
    rcases o with _ | _ | _
    · exact absurd rfl ho
    · simp [runExecutes, hsi]
    · simp [runExecutes, hsi]
  | cons a rest ih =>
    have ha : a.executeOutcome = .success := hpre a (by simp)
    have := ih fun s hs => hpre s (List.mem_cons_of_mem _ hs)
    simp [runExecutes, ha, this]

theorem promptedSteps_map_promptCall (xs : List WizardStep) :
    promptedSteps (xs.map WizardEvent.promptCall) = xs := by
  induction xs with
  | nil => rfl
  | cons a rest ih => simp [promptedSteps] at ih ⊢; exact ih

theorem executedSteps_map_promptCall (xs : List WizardStep) :
    executedSteps (xs.map WizardEvent.promptCall) = [] := by
  induction xs with
  | nil => rfl
  | cons a rest ih => simp [executedSteps]

theorem promptedSteps_map_executeCall (xs : List WizardStep) :
    promptedSteps (xs.map WizardEvent.executeCall) = [] := by
  induction xs with
  | nil => rfl
  | cons a rest ih => simp [promptedSteps]

theorem executedSteps_map_executeCall (xs : List WizardStep) :
    executedSteps (xs.map WizardEvent.executeCall) = xs := by
  induction xs with
  | nil => rfl
  | cons a rest ih => simp [executedSteps] at ih ⊢; exact ih

theorem promptedSteps_append (t1 t2 : List WizardEvent) :
    promptedSteps (t1 ++ t2) = promptedSteps t1 ++ promptedSteps t2 := by
  simp [promptedSteps]

theorem executedSteps_append (t1 t2 : List WizardEvent) :
    executedSteps (t1 ++ t2) = executedSteps t1 ++ executedSteps t2 := by
  simp [executedSteps]

/-- C2: one call to `run()` produces exactly one `WizardResult`; its status
is `Cancelled` iff the run raised a `UserCancelledError` (in either phase),
`Faulted` iff it raised a non-cancellation error, and `Completed` otherwise;
the result carries the step at which the run stopped, the last step of the
sequence on completion. -/
theorem run_result_status (w : WizardBase) :
    ((run w).1.status = .Cancelled ↔ ∃ s, raised w = some (s, .userCancelled)) ∧
    ((run w).1.status = .Faulted ↔ ∃ s, raised w = some (s, .failure)) ∧
    ((run w).1.status = .Completed ↔ raised w = none) ∧
    (∀ s o, raised w = some (s, o) → (run w).1.step = some s) ∧
    (raised w = none → (run w).1.step = w.steps.getLast?) := by
  rcases hp : runPrompts w.steps with ⟨ptr, pfail⟩
  rcases pfail with _ | ⟨s, o⟩
  · rcases he : runExecutes w.steps with ⟨etr, efail⟩
    rcases efail with _ | ⟨s, o⟩
    · simp [run, hp, he, raised]
    · have h2 : (runExecutes w.steps).2 = some (s, o) := by rw [he]
      have hne := (runExecutes_fail_mem h2).2.2
      rcases o with _ | _ | _
      · exact absurd rfl hne
      · simp [run, hp, he, raised, statusOf]
      · simp [run, hp, he, raised, statusOf]
  · have h2 : (runPrompts w.steps).2 = some (s, o) := by rw [hp]
    have hne := (runPrompts_fail_mem h2).2.2
    rcases o with _ | _ | _
    · exact absurd rfl hne
    · simp [run, hp, raised, statusOf]
    · simp [run, hp, raised, statusOf]

/-- C2 witness: the concrete one-step wizard whose prompt cancels yields a
`Cancelled` result at that step. -/
theorem run_result_status_witness :
    (run wizardCancel).1.status = .Cancelled ∧
    (run wizardCancel).1.step = some stepCancel :=
  ⟨(run_result_status wizardCancel).1.mpr ⟨stepCancel, by decide⟩,
    (run_result_status wizardCancel).2.2.2.1 stepCancel .userCancelled (by decide)⟩

/-- C3: a run calls `prompt()` and `execute()` on the steps in declared
order (each call trace is a prefix of the declared sequence, all prompt
calls before all execute calls), and an `execute()` call occurs only when
`prompt()` succeeded for every step of the sequence. -/
theorem run_call_order (w : WizardBase) :
    (∃ m1, promptedSteps (run w).2.2 = w.steps.take m1) ∧
    (∃ m2, executedSteps (run w).2.2 = w.steps.take m2) ∧
    ((run w).2.2 = (promptedSteps (run w).2.2).map WizardEvent.promptCall
        ++ (executedSteps (run w).2.2).map WizardEvent.executeCall) ∧
    (∀ s, WizardEvent.executeCall s ∈ (run w).2.2 →
        ∀ t ∈ w.steps, t.promptOutcome = .success) := by
  rcases hp : runPrompts w.steps with ⟨ptr, pfail⟩
  obtain ⟨m, hm⟩ := runPrompts_trace w.steps
  rw [hp] at hm
  have hm' : ptr = (w.steps.take m).map WizardEvent.promptCall := hm
  rcases pfail with _ | ⟨s, o⟩
  · have hall : ∀ s ∈ w.steps, s.promptOutcome = .success :=
      runPrompts_none (by rw [hp])
    rcases he : runExecutes w.steps with ⟨etr, efail⟩
    obtain ⟨m2, hm2⟩ := runExecutes_trace w.steps
    rw [he] at hm2
    have hm2' : etr = (w.steps.take m2).map WizardEvent.executeCall := hm2
    have hfull := runPrompts_all_success hall
    rw [hp] at hfull
    have hptr' : ptr = w.steps.map WizardEvent.promptCall :=
      congrArg Prod.fst hfull
    have htr : (run w).2.2 = ptr ++ etr := by
      rcases efail with _ | ⟨s, o⟩ <;> simp [run, hp, he]
    refine ⟨⟨w.steps.length, ?_⟩, ⟨m2, ?_⟩, ?_, fun s _ => hall⟩
    · rw [htr, hptr', hm2', promptedSteps_append, promptedSteps_map_promptCall,
        promptedSteps_map_executeCall]
      simp
    · rw [htr, hptr', hm2', executedSteps_append, executedSteps_map_promptCall,
        executedSteps_map_executeCall]
      simp
    · rw [htr, hptr', hm2', promptedSteps_append, executedSteps_append,
        promptedSteps_map_promptCall, promptedSteps_map_executeCall,
        executedSteps_map_promptCall, executedSteps_map_executeCall]
      simp
  · have htr : (run w).2.2 = ptr := by simp [run, hp]
    refine ⟨⟨m, ?_⟩, ⟨0, ?_⟩, ?_, fun t ht => ?_⟩
    · rw [htr, hm', promptedSteps_map_promptCall]
    · rw [htr, hm', executedSteps_map_promptCall]
      simp
    · rw [htr, hm', promptedSteps_map_promptCall, executedSteps_map_promptCall]
      simp
    · rw [htr, hm'] at ht
      rcases List.mem_map.mp ht with ⟨a, ha, hcontra⟩
      exact absurd hcontra (by simp)

/-- C3 witness: in the concrete one-step wizard the trace contains the
execute call of the step, so the theorem yields that its prompt
succeeded. -/
theorem run_call_order_witness :
    WizardStep.promptOutcome stepOk = .success :=
  (run_call_order wizardOne).2.2.2 stepOk (by decide) stepOk (by decide)

/-- C4: when every prompt succeeds and step `si`'s `execute()` raises a
generic error (every earlier step executing normally), `run()` returns a
`Faulted` result at `si`, the trace shows `execute()` ran exactly for the
steps up to and including `si` — effects of earlier steps stay applied and
later steps never execute — and the engine performs no action beyond the
listed prompt and execute calls. -/
theorem run_execute_fault (w : WizardBase) (pre post : List WizardStep)
    (si : WizardStep)
    (hsteps : w.steps = pre ++ si :: post)
    (hp : ∀ s ∈ w.steps, s.promptOutcome = .success)
    (hpre : ∀ s ∈ pre, s.executeOutcome = .success)
    (hsi : si.executeOutcome = .failure) :
    (run w).1 = { status := .Faulted, step := some si, error := some .failure } ∧
    (run w).2.2 = (w.steps.map WizardEvent.promptCall)
        ++ ((pre ++ [si]).map WizardEvent.executeCall) ∧
    executedSteps (run w).2.2 = pre ++ [si] := by
  have h1 : runPrompts w.steps = (w.steps.map WizardEvent.promptCall, none) :=
    runPrompts_all_success hp
  have h2 : runExecutes w.steps =
      ((pre ++ [si]).map WizardEvent.executeCall, some (si, .failure)) := by
    rw [hsteps]
    exact runExecutes_split hpre hsi (by simp)
  have htr : (run w).2.2 = (w.steps.map WizardEvent.promptCall)
      ++ ((pre ++ [si]).map WizardEvent.executeCall) := by
    simp [run, h1, h2]
  refine ⟨by simp [run, h1, h2, statusOf], htr, ?_⟩
  rw [htr, executedSteps_append, executedSteps_map_promptCall,
    executedSteps_map_executeCall]
  simp

/-- C4 witness: the concrete three-step wizard, all prompts succeeding, the
second step's execute raising a generic error. -/
theorem run_execute_fault_witness :
    (run wizardThree).1 = { status := .Faulted, step := some stepExecFail,
                            error := some .failure } ∧
    executedSteps (run wizardThree).2.2 = [stepOk, stepExecFail] :=
  ⟨(run_execute_fault wizardThree [stepOk] [stepTail] stepExecFail rfl
      (by decide) (by decide) rfl).1,
    (run_execute_fault wizardThree [stepOk] [stepTail] stepExecFail rfl
      (by decide) (by decide) rfl).2.2⟩

/-- C9: a prompt-phase failure leaves the wizard object unchanged (the
returned result is not retained in `_result`), whereas after an
execute-phase failure or a completed run the returned result is stored in
`_result`; the step list is never modified by `run()`. -/
theorem run_result_retention (w : WizardBase) :
    ((runPrompts w.steps).2 ≠ none → (run w).2.1 = w) ∧
    ((runPrompts w.steps).2 = none →
        (run w).2.1 = { steps := w.steps, result := some (run w).1 }) ∧
    (run w).2.1.steps = w.steps := by
  rcases hp : runPrompts w.steps with ⟨ptr, pfail⟩
  rcases pfail with _ | ⟨s, o⟩
  · rcases he : runExecutes w.steps with ⟨etr, efail⟩
    rcases efail with _ | ⟨s, o⟩ <;> simp [run, hp, he]
  · simp [run, hp]

/-- C9 witness: concrete wizards for the prompt-failure and the
execute-failure cases. -/
theorem run_result_retention_witness :
    (run wizardCancel).2.1 = wizardCancel ∧
    (run wizardExecFail).2.1 = { steps := wizardExecFail.steps,
                                 result := some (run wizardExecFail).1 } :=
  ⟨(run_result_retention wizardCancel).1 (by decide),
    (run_result_retention wizardExecFail).2.1 (by decide)⟩

end Wizard

namespace Ssh

theorem mapGet_mapSet (m : List (String × Bool)) (k k2 : String) (v : Bool) :
    mapGet (mapSet m k v) k2 = if k2 = k then some v else mapGet m k2 := by
  induction m with
  | nil =>
    by_cases h : k2 = k
    · subst h
      simp [mapSet, mapGet]
    · simp [mapSet, mapGet, h, Ne.symm h]
  | cons a rest ih =>
    obtain ⟨ak, av⟩ := a
    by_cases h1 : ak = k
    · subst h1
      by_cases h2 : k2 = ak
      · subst h2
        simp [mapSet, mapGet]
      · simp [mapSet, mapGet, h2, Ne.symm h2]
    · by_cases h2 : k2 = k
      · subst h2
        simp [mapSet, mapGet, h1, ih]
      · simp [mapSet, mapGet, h1, h2, ih]

theorem mapGet_mapErase (m : List (String × Bool)) (k k2 : String) :
    mapGet (mapErase m k) k2 = if k2 = k then none else mapGet m k2 := by
  induction m with
  | nil => simp [mapErase, mapGet, ite_self]
  | cons a rest ih =>
    obtain ⟨ak, av⟩ := a
    by_cases h1 : ak = k
    · subst h1
      by_cases h2 : k2 = ak
      · subst h2
        simp [mapErase, mapGet, ih]
      · simp [mapErase, mapGet, ih, h2, Ne.symm h2]
    · by_cases h2 : k2 = k
      · subst h2
        simp [mapErase, mapGet, h1, ih]
      · simp [mapErase, mapGet, h1, h2, ih]

theorem findTerminal_name {ts : List Terminal} {nm : String} {t : Terminal}
    (h : findTerminal ts nm = some t) : t.name = nm := by
  induction ts with
  | nil => simp [findTerminal] at h
  | cons a rest ih =>
    by_cases ha : a.name = nm
    · simp [findTerminal, ha] at h
      rw [← h]
      exact ha
    · simp [findTerminal, ha] at h
      exact ih h

theorem internal_sessions (k : String) (env : Env) (w : World) :
    (startRemoteSshInternal k env w).world.activeSshSessions
      = w.activeSshSessions := by
  obtain ⟨il, po, fp⟩ := env
  cases il <;> cases po <;>
    simp [startRemoteSshInternal, connectToTunnelProxy]

/-- C5: a `startSession(k)` call that finds an existing registration for
`k` throws the "already started" error with the world untouched — the
first session's registration, port and terminal are unaffected — and
every call that passes the duplicate check writes the registration for
`k` as its very first action, before any bring-up work. -/
theorem startSession_duplicate_guard (k : String) (env : Env) (w : World) :
    (truthy w.activeSshSessions k = true →
      startRemoteSsh k env w =
        { trace := [], world := w, err := some (.alreadyStarted k) }) ∧
    (truthy w.activeSshSessions k = false →
      (startRemoteSsh k env w).trace.head? = some (.regWrite k true)) := by
  constructor
  · intro h
    simp [startRemoteSsh, h]
  · intro h
    rcases he : (startRemoteSshInternal k env
        { w with activeSshSessions := mapSet w.activeSshSessions k true }).err
      with _ | e <;>
      simp [startRemoteSsh, h, he]

/-- C5 witness: the duplicate call on `sampleWorld` throws with the world
unchanged; the fresh call on `emptyWorld` writes the registration
first. -/
theorem startSession_duplicate_guard_witness :
    startRemoteSsh "app1" goodEnv sampleWorld =
      { trace := [], world := sampleWorld,
        err := some (.alreadyStarted "app1") } ∧
    (startRemoteSsh "app1" goodEnv emptyWorld).trace.head? =
      some (.regWrite "app1" true) :=
  ⟨(startSession_duplicate_guard "app1" goodEnv sampleWorld).1 (by decide),
    (startSession_duplicate_guard "app1" goodEnv emptyWorld).2 (by decide)⟩

/-- C6: when the target is not Linux, `startSession` throws the
"only supported for Linux" error to the caller, and the registration it
wrote is released — the registry reports no active session for `k` (the
entry holds `false`) — with the configuration and terminals untouched. -/
theorem startSession_notLinux (k : String) (env : Env) (w : World)
    (hl : env.isLinux = false)
    (h : truthy w.activeSshSessions k = false) :
    (startRemoteSsh k env w).err = some .notLinux ∧
    mapGet (startRemoteSsh k env w).world.activeSshSessions k = some false ∧
    truthy (startRemoteSsh k env w).world.activeSshSessions k = false ∧
    (startRemoteSsh k env w).world.remoteDebuggingEnabled
      = w.remoteDebuggingEnabled ∧
    (startRemoteSsh k env w).world.terminals = w.terminals := by
  have h2 : (mapGet w.activeSshSessions k).getD false = false := h
  refine ⟨?_, ?_, ?_, ?_, ?_⟩ <;>
    simp [startRemoteSsh, startRemoteSshInternal, h2, hl, truthy,
      mapGet_mapSet]

/-- C6 witness: the non-Linux environment on the empty world. -/
theorem startSession_notLinux_witness :
    (startRemoteSsh "app1" windowsEnv emptyWorld).err = some .notLinux ∧
    mapGet (startRemoteSsh "app1" windowsEnv emptyWorld).world.activeSshSessions
        "app1" = some false ∧
    truthy (startRemoteSsh "app1" windowsEnv emptyWorld).world.activeSshSessions
        "app1" = false ∧
    (startRemoteSsh "app1" windowsEnv emptyWorld).world.remoteDebuggingEnabled
      = emptyWorld.remoteDebuggingEnabled ∧
    (startRemoteSsh "app1" windowsEnv emptyWorld).world.terminals
      = emptyWorld.terminals :=
  startSession_notLinux "app1" windowsEnv emptyWorld (by decide) (by decide)

/-- C7: `stopSession(k)` with a falsy registry entry throws "not
running" with an empty trace (no terminal lookup, no disposal) and the
world untouched; with a truthy entry it disposes the first terminal
carrying the session's well-known name; when no terminal carries that
name it throws "could not be found" with the world — in particular the
registry — untouched. -/
theorem stopSession_cases (k : String) (w : World) :
    (truthy w.activeSshSessions k = false →
      stopRemoteSsh k w =
        { trace := [], world := w, err := some (.notRunning k) }) ∧
    (truthy w.activeSshSessions k = true →
      ∀ t, findTerminal w.terminals (sshTerminalName k) = some t →
        t.name = sshTerminalName k ∧
        stopRemoteSsh k w =
          { trace := [.lookupTerminals, .disposeTerminal t.id],
            world := { w with
              terminals := disposeFirst w.terminals (sshTerminalName k) },
            err := none }) ∧
    (truthy w.activeSshSessions k = true →
      findTerminal w.terminals (sshTerminalName k) = none →
        stopRemoteSsh k w =
          { trace := [.lookupTerminals], world := w,
            err := some (.terminalNotFound (sshTerminalName k)) }) := by
  refine ⟨fun h => by simp [stopRemoteSsh, h], fun h t ht => ?_, fun h hn => ?_⟩
  · exact ⟨findTerminal_name ht, by simp [stopRemoteSsh, h, ht]⟩
  · simp [stopRemoteSsh, h, hn]

/-- C7 witness: the not-running case on `emptyWorld`, the dispose case on
`sampleWorld`, and the drifted case on `driftWorld`. -/
theorem stopSession_cases_witness :
    stopRemoteSsh "app1" emptyWorld =
      { trace := [], world := emptyWorld,
        err := some (.notRunning "app1") } ∧
    stopRemoteSsh "app1" sampleWorld =
      { trace := [.lookupTerminals, .disposeTerminal 0],
        world := { sampleWorld with
          terminals := disposeFirst sampleWorld.terminals
            (sshTerminalName "app1") },
        err := none } ∧
    stopRemoteSsh "app1" driftWorld =
      { trace := [.lookupTerminals], world := driftWorld,
        err := some (.terminalNotFound (sshTerminalName "app1")) } :=
  ⟨(stopSession_cases "app1" emptyWorld).1 (by decide),
    ((stopSession_cases "app1" sampleWorld).2.1 (by decide)
      { id := 0, name := sshTerminalName "app1", disposed := false }
      (by decide)).2,
    (stopSession_cases "app1" driftWorld).2.2 (by decide) (by decide)⟩

/-- C8 counterexample: in a successful bring-up the platform check does
not come first — the configuration snapshot and the port reservation
precede it — so the order §4.3 lists does not hold of the trace. -/
theorem startSession_order_counterexample :
    ¬ specBringUpOrder (startRemoteSsh "app1" goodEnv emptyWorld).trace := by
  decide

/-- C8 amended: a successful `startSession` performs, in order: write the
registration, snapshot the site configuration, reserve the free local
port, check the platform supports tunneling, disable remote debugging,
fetch the publish credentials, start the tunnel proxy, create the bound
terminal, send the connect command referencing the local port, wait the
fixed 3000 ms settle delay, send the login credential, show the terminal
and register the closure handler; the settle delay is the only delay in
the sequence. -/
theorem startSession_bring_up_trace (k : String) (env : Env) (w : World)
    (h : truthy w.activeSshSessions k = false)
    (hl : env.isLinux = true) (hp : env.startProxyOk = true) :
    (startRemoteSsh k env w).trace =
      [.regWrite k true, .getSiteConfig, .getFreePort, .checkLinux,
        .setRemoteDebug false, .getPublishCredential, .startProxy,
        .createTerminal (sshTerminalName k),
        .sendText (sshCommand env.freePort), .delay 3000,
        .sendText "Docker!", .showTerminal, .registerCloseHandler] ∧
    (startRemoteSsh k env w).trace.countP
        (fun e => match e with | .delay _ => true | _ => false) = 1 := by
  have htr : (startRemoteSsh k env w).trace =
      [.regWrite k true, .getSiteConfig, .getFreePort, .checkLinux,
        .setRemoteDebug false, .getPublishCredential, .startProxy,
        .createTerminal (sshTerminalName k),
        .sendText (sshCommand env.freePort), .delay 3000,
        .sendText "Docker!", .showTerminal, .registerCloseHandler] := by
    simp [startRemoteSsh, startRemoteSshInternal, connectToTunnelProxy,
      h, hl, hp]
  refine ⟨htr, ?_⟩
  rw [htr]
  rfl

/-- C8 amended witness: the successful bring-up on the empty world. -/
theorem startSession_bring_up_trace_witness :
    (startRemoteSsh "app1" goodEnv emptyWorld).trace =
      [.regWrite "app1" true, .getSiteConfig, .getFreePort, .checkLinux,
        .setRemoteDebug false, .getPublishCredential, .startProxy,
        .createTerminal (sshTerminalName "app1"),
        .sendText (sshCommand goodEnv.freePort), .delay 3000,
        .sendText "Docker!", .showTerminal, .registerCloseHandler] ∧
    (startRemoteSsh "app1" goodEnv emptyWorld).trace.countP
        (fun e => match e with | .delay _ => true | _ => false) = 1 :=
  startSession_bring_up_trace "app1" goodEnv emptyWorld (by decide) rfl rfl

/-- C1 counterexample: the bound terminal of `sampleWorld`'s session
closes while `tunnelProxy.dispose()` throws; afterwards the registry
still reports "app1" active and the remote-debug configuration still
differs from its pre-session snapshot — the teardown actions are not
attempted independently. -/
theorem teardown_counterexample :
    mapGet (onTerminalClosed sampleCtx 0 false
        sampleWorld).world.activeSshSessions "app1" = some true ∧
    (onTerminalClosed sampleCtx 0 false sampleWorld).world.remoteDebuggingEnabled
      ≠ sampleCtx.oldSetting := by
  decide

/-- C1 amended: the closure handler runs its three teardown actions in
sequence with no error isolation.  When tunnel disposal succeeds it
disposes the tunnel, sets the registration for `k` to `false` and
restores the remote-debug snapshot; when tunnel disposal throws, the
error propagates out of the handler and neither the registration clear
nor the configuration restore happens. -/
theorem teardown_close_handler (ctx : SessionCtx) (disposeOk : Bool)
    (w : World) :
    (disposeOk = true →
      onTerminalClosed ctx ctx.termId disposeOk w =
        { trace := [.disposeTunnel, .regWrite ctx.k false,
            .setRemoteDebug ctx.oldSetting],
          world := { w with
            activeSshSessions := mapSet w.activeSshSessions ctx.k false,
            remoteDebuggingEnabled := ctx.oldSetting },
          err := none }) ∧
    (disposeOk = true →
      truthy (onTerminalClosed ctx ctx.termId disposeOk
          w).world.activeSshSessions ctx.k = false ∧
      (onTerminalClosed ctx ctx.termId disposeOk
          w).world.remoteDebuggingEnabled = ctx.oldSetting) ∧
    (disposeOk = false →
      onTerminalClosed ctx ctx.termId disposeOk w =
        { trace := [.disposeTunnel], world := w,
          err := some .tunnelDisposeFailed }) := by
  refine ⟨fun h => ?_, fun h => ?_, fun h => ?_⟩ <;>
    simp [onTerminalClosed, h, truthy, mapGet_mapSet]

/-- C1 amended witness: both dispose outcomes on `sampleWorld`'s
session. -/
theorem teardown_close_handler_witness :
    onTerminalClosed sampleCtx sampleCtx.termId true sampleWorld =
      { trace := [.disposeTunnel, .regWrite sampleCtx.k false,
          .setRemoteDebug sampleCtx.oldSetting],
        world := { sampleWorld with
          activeSshSessions := mapSet sampleWorld.activeSshSessions
            sampleCtx.k false,
          remoteDebuggingEnabled := sampleCtx.oldSetting },
        err := none } ∧
    onTerminalClosed sampleCtx sampleCtx.termId false sampleWorld =
      { trace := [.disposeTunnel], world := sampleWorld,
        err := some .tunnelDisposeFailed } :=
  ⟨(teardown_close_handler sampleCtx true sampleWorld).1 rfl,
    (teardown_close_handler sampleCtx false sampleWorld).2.2 rfl⟩

/-- C10: the registry never deletes an entry — teardown and a failed
`startSession` map the key to `false` rather than removing it — and both
the duplicate check and the running check test only truthiness, so for a
key whose entry is `false`, `startSession` behaves exactly as if no entry
had ever existed (same error, same trace, same registry contents up to
lookup, same configuration and terminals, never the "already started"
error) and `stopSession` throws "not running". -/
theorem registry_entries_persist (k : String) (env : Env) (w : World)
    (ctx : SessionCtx)
    (hfalse : mapGet w.activeSshSessions k = some false) :
    mapGet (onTerminalClosed ctx ctx.termId true w).world.activeSshSessions
        ctx.k = some false ∧
    ((startRemoteSsh k env w).err ≠ none →
      mapGet (startRemoteSsh k env w).world.activeSshSessions k
        = some false) ∧
    (startRemoteSsh k env w).err = (startRemoteSsh k env
        (eraseSession w k)).err ∧
    (startRemoteSsh k env w).trace = (startRemoteSsh k env
        (eraseSession w k)).trace ∧
    (∀ k2, mapGet (startRemoteSsh k env w).world.activeSshSessions k2
      = mapGet (startRemoteSsh k env
          (eraseSession w k)).world.activeSshSessions k2) ∧
    (startRemoteSsh k env w).world.remoteDebuggingEnabled
      = (startRemoteSsh k env (eraseSession w k)).world.remoteDebuggingEnabled ∧
    (startRemoteSsh k env w).world.terminals
      = (startRemoteSsh k env (eraseSession w k)).world.terminals ∧
    (startRemoteSsh k env w).err ≠ some (.alreadyStarted k) ∧
    stopRemoteSsh k w =
      { trace := [], world := w, err := some (.notRunning k) } := by
  have ht : (mapGet w.activeSshSessions k).getD false = false := by
    rw [hfalse]
    rfl
  have ht2 : (mapGet (mapErase w.activeSshSessions k) k).getD false = false := by
    rw [mapGet_mapErase]
    simp
  obtain ⟨il, po, fp⟩ := env
  refine ⟨by simp [onTerminalClosed, mapGet_mapSet], ?_, ?_, ?_,
    fun k2 => ?_, ?_, ?_, ?_, by simp [stopRemoteSsh, truthy, ht]⟩ <;>
    cases il <;> cases po <;>
      simp [startRemoteSsh, startRemoteSshInternal, connectToTunnelProxy,
        eraseSession, truthy, ht, ht2, mapGet_mapSet, mapGet_mapErase] <;>
    by_cases hk : k2 = k <;> simp [hk]

/-- C10 witness: on the world whose entry "app1" is `false`, teardown
leaves the entry at `false`, `stopSession` throws "not running", and
`startSession` leaves the same registry reading as on the world without
the entry. -/
theorem registry_entries_persist_witness :
    mapGet (onTerminalClosed sampleCtx sampleCtx.termId true
        staleWorld).world.activeSshSessions sampleCtx.k = some false ∧
    stopRemoteSsh "app1" staleWorld =
      { trace := [], world := staleWorld,
        err := some (.notRunning "app1") } ∧
    mapGet (startRemoteSsh "app1" goodEnv
        staleWorld).world.activeSshSessions "app1"
      = mapGet (startRemoteSsh "app1" goodEnv
          (eraseSession staleWorld "app1")).world.activeSshSessions "app1" :=
  ⟨(registry_entries_persist "app1" goodEnv staleWorld sampleCtx
      (by decide)).1,
    (registry_entries_persist "app1" goodEnv staleWorld sampleCtx
      (by decide)).2.2.2.2.2.2.2.2,
    (registry_entries_persist "app1" goodEnv staleWorld sampleCtx
      (by decide)).2.2.2.2.1 "app1"⟩

end Ssh
